import Mathlib

/-!
Shallow embedding of the online-doska collaborative whiteboard server.
The primary source is src/server.js; the older duplicated variant
src/unnamed/part_000 is embedded separately (p0-prefixed definitions)
where its behaviour differs.  SQLite tables become Lean lists, socket
emissions become an explicit list of emissions tagged with their fan-out
target, and the asynchronous result of a db call is an explicit Boolean
parameter (dbOk : true = the callback received no error).  Timestamps
are natural numbers.
-/

namespace Doska

/-- A row of the drawings table (id INTEGER PRIMARY KEY AUTOINCREMENT,
type TEXT, data TEXT, user_id TEXT nullable, created_at DATETIME).
The serialized JSON blob in the data column is kept as an opaque string. -/
structure Row where
  id : Nat
  type : String
  data : String
  user_id : Option String
  created_at : Nat
  deriving DecidableEq

/-- A row of the user_sessions table (username, role, socket_id,
connected_at). -/
structure SessionRow where
  username : String
  role : String
  socket_id : String
  connected_at : Nat
  deriving DecidableEq

/-- socket.userData as set by the user_join handler: the identity bound
to a live connection. -/
structure UserData where
  username : String
  role : String
  deriving DecidableEq

/-- Fan-out scope of one socket.io emission: socket.emit is originator,
socket.broadcast.emit is others, io.emit is all. -/
inductive Target where
  | originator
  | others
  | all
  deriving DecidableEq

/-- Payload of an emission, abstracted: unit (no payload), a numeric id,
or a string (either a serialized data blob or a message). -/
inductive EPayload where
  | unit
  | nat (n : Nat)
  | str (s : String)
  deriving DecidableEq

/-- One socket.io emission performed by a handler. -/
structure Emission where
  target : Target
  event : String
  payload : EPayload
  deriving DecidableEq

/-- JS truthiness of a possibly-missing numeric field (data.id): undefined
and 0 are falsy. -/
def truthyId : Option Nat → Bool
  | none => false
  | some n => n != 0

/-- JS truthiness of a possibly-missing string field: undefined and the
empty string are falsy. -/
def truthyStr : Option String → Bool
  | none => false
  | some s => s != ""

/-- The permission check written identically in the textUpdate, textMove
and textDelete handlers of both files:
role === Администратор || username === data.owner.
The owner field comes from the request payload and may be undefined. -/
def canEdit (role username : String) (owner : Option String) : Bool :=
  role == "Администратор" || some username == owner

/-- AUTOINCREMENT id for an INSERT INTO drawings: one more than the
largest id present. -/
def nextId (store : List Row) : Nat :=
  (store.map Row.id).foldr Nat.max 0 + 1

/-- UPDATE drawings SET data = newData WHERE id = tid: only the data
column of matching rows changes. -/
def updateDataById (store : List Row) (tid : Option Nat) (newData : String) : List Row :=
  store.map (fun r => if some r.id == tid then { r with data := newData } else r)

/-- DELETE FROM drawings WHERE id = tid. -/
def deleteById (store : List Row) (tid : Option Nat) : List Row :=
  store.filter (fun r => some r.id != tid)

/-- The payload socket.broadcast.emit receives for textDelete: data.id. -/
def idPayload : Option Nat → EPayload
  | some n => EPayload.nat n
  | none => EPayload.unit

def msgEditDenied : String := "Нет прав для редактирования этого текста"
def msgMoveDenied : String := "Нет прав для перемещения этого текста"
def msgDeleteDenied : String := "Нет прав для удаления этого текста"
def msgClearDenied : String := "Только учитель может очистить доску"
def msgUpdateErr : String := "Ошибка при обновлении текста"
def msgMoveErr : String := "Ошибка при перемещении текста"
def msgDeleteErr : String := "Ошибка при удалении текста"
def msgClearErr : String := "Ошибка при очистке доски"
def msgCleared (username : String) : String := username ++ " очистил доску"

/-- A textUpdate / textMove / textDelete request payload: data.id,
data.owner, and the remaining fields kept opaque. -/
structure TextEventData where
  id : Option Nat
  owner : Option String
  rest : String
  deriving DecidableEq

/-- JSON.stringify of the request data merged with the server-added
timestamp and userId fields, modelled as an opaque injective-enough
string build. -/
def mkStamped (d : TextEventData) (now : Nat) (uid : String) : String :=
  d.rest ++ "|ts:" ++ toString now ++ "|uid:" ++ uid

/-- A drawing event payload: data.from, data.to (objects, falsy only when
missing) and the rest opaque. -/
structure DrawData where
  fromPt : Option String
  toPt : Option String
  rest : String
  deriving DecidableEq

def mkStampedDraw (d : DrawData) (now : Nat) (uid : String) : String :=
  d.rest ++ "|ts:" ++ toString now ++ "|uid:" ++ uid

/-- A text-creation event payload: data.text, data.id, rest opaque. -/
structure TextCreateData where
  text : Option String
  id : Option Nat
  rest : String
  deriving DecidableEq

def mkStampedText (d : TextCreateData) (now : Nat) (uid : String) : String :=
  d.rest ++ "|txt:" ++ (d.text.getD "") ++ "|ts:" ++ toString now ++ "|uid:" ++ uid

/-- server.js socket.on drawing (lines 272-302): validate data.from and
data.to, INSERT the stamped blob, then broadcast sender-exclusive.  The
broadcast is outside the db callback; a db error only logs. -/
def serverDrawing (u : UserData) (d : Option DrawData) (store : List Row)
    (now : Nat) (dbOk : Bool) : List Row × List Emission :=
  match d with
  | none => (store, [])
  | some d =>
    if d.fromPt.isNone || d.toPt.isNone then (store, [])
    else
      let blob := mkStampedDraw d now u.username
      ((if dbOk then store ++ [⟨nextId store, "drawing", blob, some u.username, now⟩] else store),
       [⟨Target.others, "drawing", EPayload.str blob⟩])

/-- server.js socket.on text (lines 305-335): validate data.text and
data.id, INSERT the stamped blob, broadcast sender-exclusive. -/
def serverText (u : UserData) (d : Option TextCreateData) (store : List Row)
    (now : Nat) (dbOk : Bool) : List Row × List Emission :=
  match d with
  | none => (store, [])
  | some d =>
    if truthyStr d.text = false || truthyId d.id = false then (store, [])
    else
      let blob := mkStampedText d now u.username
      ((if dbOk then store ++ [⟨nextId store, "text", blob, some u.username, now⟩] else store),
       [⟨Target.others, "text", EPayload.str blob⟩])

/-- server.js socket.on textUpdate (lines 338-379): validate data.id,
check canEdit against the request owner field, UPDATE the data column,
broadcast sender-exclusive; a db error additionally emits an error
notice to the originator. -/
def serverTextUpdate (u : UserData) (d : Option TextEventData) (store : List Row)
    (now : Nat) (dbOk : Bool) : List Row × List Emission :=
  match d with
  | none => (store, [])
  | some d =>
    if truthyId d.id = false then (store, [])
    else if canEdit u.role u.username d.owner = false then
      (store, [⟨Target.originator, "error", EPayload.str msgEditDenied⟩])
    else
      let newData := mkStamped d now u.username
      ((if dbOk then updateDataById store d.id newData else store),
       ⟨Target.others, "textUpdate", EPayload.str newData⟩ ::
         (if dbOk then [] else [⟨Target.originator, "error", EPayload.str msgUpdateErr⟩]))

/-- server.js socket.on textMove (lines 382-423): identical in shape to
textUpdate with its own messages and event name. -/
def serverTextMove (u : UserData) (d : Option TextEventData) (store : List Row)
    (now : Nat) (dbOk : Bool) : List Row × List Emission :=
  match d with
  | none => (store, [])
  | some d =>
    if truthyId d.id = false then (store, [])
    else if canEdit u.role u.username d.owner = false then
      (store, [⟨Target.originator, "error", EPayload.str msgMoveDenied⟩])
    else
      let newData := mkStamped d now u.username
      ((if dbOk then updateDataById store d.id newData else store),
       ⟨Target.others, "textMove", EPayload.str newData⟩ ::
         (if dbOk then [] else [⟨Target.originator, "error", EPayload.str msgMoveErr⟩]))

/-- server.js socket.on textDelete (lines 426-457): validate data.id,
check canEdit against the request owner field, DELETE the row, broadcast
the deleted data.id sender-exclusive; a db error additionally emits an
error notice to the originator. -/
def serverTextDelete (u : UserData) (d : Option TextEventData) (store : List Row)
    (dbOk : Bool) : List Row × List Emission :=
  match d with
  | none => (store, [])
  | some d =>
    if truthyId d.id = false then (store, [])
    else if canEdit u.role u.username d.owner = false then
      (store, [⟨Target.originator, "error", EPayload.str msgDeleteDenied⟩])
    else
      ((if dbOk then deleteById store d.id else store),
       ⟨Target.others, "textDelete", idPayload d.id⟩ ::
         (if dbOk then [] else [⟨Target.originator, "error", EPayload.str msgDeleteErr⟩]))

/-- part_000 socket.on textDelete (lines 296-315): same permission check
but a denied request produces no emission at all, and a db error only
logs. -/
def p0TextDelete (u : UserData) (d : TextEventData) (store : List Row)
    (dbOk : Bool) : List Row × List Emission :=
  if canEdit u.role u.username d.owner = false then (store, [])
  else
    ((if dbOk then deleteById store d.id else store),
     [⟨Target.others, "textDelete", idPayload d.id⟩])

/-- server.js socket.on clear (lines 460-492): only the admin role may
clear; on success DELETE FROM drawings, io.emit clear to ALL connections
and io.emit the cleared-by notification to ALL connections. -/
def serverClear (u : UserData) (store : List Row) (dbOk : Bool) :
    List Row × List Emission :=
  if (u.role == "Администратор") = false then
    (store, [⟨Target.originator, "clear_error", EPayload.str msgClearDenied⟩])
  else if dbOk then
    ([], [⟨Target.all, "clear", EPayload.unit⟩,
          ⟨Target.all, "notification", EPayload.str (msgCleared u.username)⟩])
  else
    (store, [⟨Target.originator, "clear_error", EPayload.str msgClearErr⟩])

/-- part_000 socket.on clear (lines 318-347): identical except the
cleared-by notification is socket.broadcast.emit, hence sender-exclusive. -/
def p0Clear (u : UserData) (store : List Row) (dbOk : Bool) :
    List Row × List Emission :=
  if (u.role == "Администратор") = false then
    (store, [⟨Target.originator, "clear_error", EPayload.str msgClearDenied⟩])
  else if dbOk then
    ([], [⟨Target.all, "clear", EPayload.unit⟩,
          ⟨Target.others, "notification", EPayload.str (msgCleared u.username)⟩])
  else
    (store, [⟨Target.originator, "clear_error", EPayload.str msgClearErr⟩])

/-- INSERT OR REPLACE INTO user_sessions with socket_id UNIQUE
(server.js): any existing row with the same socket_id is replaced. -/
def upsertSession (rows : List SessionRow) (s : SessionRow) : List SessionRow :=
  rows.filter (fun r => r.socket_id != s.socket_id) ++ [s]

/-- Plain INSERT INTO user_sessions (part_000, whose schema has no UNIQUE
constraint on socket_id): the row is appended unconditionally. -/
def p0JoinSession (rows : List SessionRow) (username role sockId : String)
    (now : Nat) : List SessionRow :=
  rows ++ [⟨username, role, sockId, now⟩]

/-- DELETE FROM user_sessions WHERE socket_id = sockId (disconnect). -/
def removeSession (rows : List SessionRow) (sockId : String) : List SessionRow :=
  rows.filter (fun r => r.socket_id != sockId)

/-- Hourly sweep: DELETE FROM user_sessions WHERE connected_at < cutoff. -/
def sweepSessions (rows : List SessionRow) (cutoff : Nat) : List SessionRow :=
  rows.filter (fun r => decide (cutoff ≤ r.connected_at))

/-- The user_join request payload: username may be missing or empty. -/
structure JoinPayload where
  username : Option String
  role : String
  deriving DecidableEq

/-- server.js socket.on user_join (lines 231-269): reject a missing
payload or a falsy username (nothing bound, persisted or emitted);
otherwise bind socket.userData, upsert the session row, broadcast
user_joined to the others and publish online_users_update to all. -/
def serverUserJoin (binding : Option UserData) (sessions : List SessionRow)
    (payload : Option JoinPayload) (sockId : String) (now : Nat) :
    Option UserData × List SessionRow × List Emission :=
  match payload with
  | none => (binding, sessions, [])
  | some p =>
    if truthyStr p.username = false then (binding, sessions, [])
    else
      let uname := p.username.getD ""
      (some ⟨uname, p.role⟩,
       upsertSession sessions ⟨uname, p.role, sockId, now⟩,
       [⟨Target.others, "user_joined", EPayload.str uname⟩,
        ⟨Target.all, "online_users_update", EPayload.unit⟩])

/-- part_000 socket.on user_join (lines 158-183): no validation at all —
any payload carrying a (possibly empty) string username is accepted,
bound, inserted and broadcast. -/
def p0UserJoin (sessions : List SessionRow) (username role sockId : String)
    (now : Nat) : Option UserData × List SessionRow × List Emission :=
  (some ⟨username, role⟩,
   p0JoinSession sessions username role sockId now,
   [⟨Target.others, "user_joined", EPayload.str username⟩,
    ⟨Target.all, "online_users_update", EPayload.unit⟩])

/-- One mutation of the user_sessions table performed by server.js. -/
inductive RegOp where
  | join (s : SessionRow)
  | leave (sockId : String)
  | sweep (cutoff : Nat)

def applyRegOp (rows : List SessionRow) : RegOp → List SessionRow
  | RegOp.join s => upsertSession rows s
  | RegOp.leave sid => removeSession rows sid
  | RegOp.sweep c => sweepSessions rows c

def runRegOps (rows : List SessionRow) (ops : List RegOp) : List SessionRow :=
  ops.foldl applyRegOp rows

/-- The registry invariant of claim C5: no two bindings share a
connectionId (socket_id). -/
def uniqueSockets (rows : List SessionRow) : Prop :=
  (rows.map SessionRow.socket_id).Nodup

/-- An HTTP response, reduced to its status code and success flag. -/
structure HttpResp where
  status : Nat
  ok : Bool
  deriving DecidableEq

/-- server.js DELETE /api/drawing/:id (lines 169-196): 400 on a missing
id, 403 unless admin or userId equals the declared body owner, 500 on a
db error, 404 when no row was deleted, otherwise delete, io.emit the
deleted id to all and answer success. -/
def serverApiDelete (reqId : Option Nat) (userId owner role : Option String)
    (store : List Row) (dbOk : Bool) : List Row × HttpResp × List Emission :=
  match reqId with
  | none => (store, ⟨400, false⟩, [])
  | some rid =>
    if (role != some "Администратор") && (userId != owner) then
      (store, ⟨403, false⟩, [])
    else if dbOk = false then (store, ⟨500, false⟩, [])
    else if store.all (fun r => r.id != rid) then (store, ⟨404, false⟩, [])
    else
      (store.filter (fun r => r.id != rid), ⟨200, true⟩,
       [⟨Target.all, "textDelete", EPayload.nat rid⟩])

/-- part_000 DELETE /api/drawing/:id (lines 122-139): same permission
check, but no existence check (this.changes is never consulted) and no
broadcast — an absent id still answers success. -/
def p0ApiDelete (rid : Nat) (userId owner role : Option String)
    (store : List Row) (dbOk : Bool) : List Row × HttpResp × List Emission :=
  if (role != some "Администратор") && (userId != owner) then
    (store, ⟨403, false⟩, [])
  else if dbOk = false then (store, ⟨500, false⟩, [])
  else (store.filter (fun r => r.id != rid), ⟨200, true⟩, [])

/-- The ORDER BY created_at ASC comparison of GET /api/drawings. -/
def createdLe (a b : Row) : Prop := a.created_at ≤ b.created_at

instance : DecidableRel createdLe := fun a b => Nat.decLe a.created_at b.created_at

instance : IsTotal Row createdLe := ⟨fun a b => Nat.le_total a.created_at b.created_at⟩

instance : IsTrans Row createdLe := ⟨fun _ _ _ h h2 => Nat.le_trans h h2⟩

/-- Semantics of SELECT * FROM drawings ORDER BY created_at ASC: SQLite
leaves the relative order of rows with equal created_at undefined, so a
result is any permutation of the table that is sorted by created_at. -/
def validScan (store out : List Row) : Prop :=
  store.Perm out ∧ out.Sorted createdLe

/-- The stronger ordering claimed by the spec: ascending created_at with
ties broken by ascending id. -/
def lexLe (a b : Row) : Prop :=
  a.created_at < b.created_at ∨ (a.created_at = b.created_at ∧ a.id ≤ b.id)

instance : DecidableRel lexLe := fun a b =>
  inferInstanceAs (Decidable (a.created_at < b.created_at ∨
    (a.created_at = b.created_at ∧ a.id ≤ b.id)))

/-- LIMIT lim OFFSET off applied to an ordered scan. -/
def pageWindow (out : List Row) (lim off : Nat) : List Row :=
  (out.drop off).take lim

/-- The emissions of a handler that fan out to the other connections. -/
def broadcasts (es : List Emission) : List Emission :=
  es.filter (fun e => e.target == Target.others)

/-- Concrete sample data used by witnesses and counterexamples. -/
def rowA : Row := ⟨1, "text", "blobA", some "Ann", 10⟩
def rowB : Row := ⟨2, "text", "blobB", some "Ann", 10⟩
def rowBobOwned : Row := ⟨1, "text", "blobA", some "Bob", 5⟩
def uAnnStd : UserData := ⟨"Ann", "Ученик"⟩
def uBobStd : UserData := ⟨"Bob", "Ученик"⟩
def uCaraAdm : UserData := ⟨"Cara", "Администратор"⟩
def dAnn1 : TextEventData := ⟨some 1, some "Ann", "p"⟩
def dAnn5 : TextEventData := ⟨some 5, some "Ann", "p"⟩
def dBobReqAnn : TextEventData := ⟨some 1, some "Ann", "qq"⟩
def drawSample : DrawData := ⟨some "p1", some "p2", "seg"⟩
def tcSample : TextCreateData := ⟨some "hello", some 3, "t"⟩

/-! ## Theorems -/

/-- C1: the permission check shared by the textUpdate, textMove and
textDelete handlers: an Administrator may mutate any item regardless of
its owner; a non-Administrator with username u passes exactly when the
event owner field equals u. -/
theorem canMutate_role_spec (u o r v : String)
    (hr : r ≠ "Администратор") (hv : v ≠ u) :
    canEdit "Администратор" u (some o) = true ∧
    canEdit "Администратор" u none = true ∧
    canEdit r u (some u) = true ∧
    canEdit r u (some v) = false := by
  refine ⟨by simp [canEdit], by simp [canEdit], by simp [canEdit], ?_⟩
  simp [canEdit, hr, hv.symm]

/-- Witness for C1 at concrete participants and owners. -/
theorem canMutate_role_spec_witness :
    (("Ученик" : String) ≠ "Администратор" ∧ ("Bob" : String) ≠ "Ann") ∧
    (canEdit "Администратор" "Ann" (some "Bob") = true ∧
     canEdit "Администратор" "Ann" none = true ∧
     canEdit "Ученик" "Ann" (some "Ann") = true ∧
     canEdit "Ученик" "Ann" (some "Bob") = false) :=
  ⟨⟨by decide, by decide⟩,
   canMutate_role_spec "Ann" "Bob" "Ученик" "Bob" (by decide) (by decide)⟩

/-- C4: a clear event from a non-Administrator yields a clear_error
notice to the issuer only and leaves the store untouched, in both
files. -/
theorem clear_nonadmin_spec (u : UserData) (store : List Row) (db : Bool)
    (h : u.role ≠ "Администратор") :
    serverClear u store db
      = (store, [⟨Target.originator, "clear_error", EPayload.str msgClearDenied⟩]) ∧
    p0Clear u store db
      = (store, [⟨Target.originator, "clear_error", EPayload.str msgClearDenied⟩]) := by
  constructor <;> simp [serverClear, p0Clear, h]

/-- Witness for C4: Ann (Standard) tries to clear a one-item board. -/
theorem clear_nonadmin_spec_witness :
    uAnnStd.role ≠ "Администратор" ∧
    serverClear uAnnStd [rowA] true
      = ([rowA], [⟨Target.originator, "clear_error", EPayload.str msgClearDenied⟩]) :=
  ⟨by decide, (clear_nonadmin_spec uAnnStd [rowA] true (by decide)).1⟩

/-- C3 counterexample: in server.js the cleared-by notification is
io.emit, i.e. delivered to every connection including the issuer — the
handler output contains no sender-exclusive notification at all. -/
theorem clear_notice_not_sender_exclusive :
    serverClear uCaraAdm [rowA] true
      = ([], [⟨Target.all, "clear", EPayload.unit⟩,
              ⟨Target.all, "notification", EPayload.str (msgCleared "Cara")⟩]) ∧
    (∀ e ∈ (serverClear uCaraAdm [rowA] true).2,
        ¬ (e.event = "notification" ∧ e.target = Target.others)) := by
  decide

/-- C3 (amended): a clear issued by an Active Administrator empties the
store and delivers the clear notice to all connections including the
issuer; the informational cleared-by notification is then delivered to
ALL connections in server.js (io.emit) and sender-exclusively only in
the older part_000 variant. -/
theorem clear_admin_spec (u : UserData) (store : List Row)
    (h : u.role = "Администратор") :
    serverClear u store true
      = ([], [⟨Target.all, "clear", EPayload.unit⟩,
              ⟨Target.all, "notification", EPayload.str (msgCleared u.username)⟩]) ∧
    p0Clear u store true
      = ([], [⟨Target.all, "clear", EPayload.unit⟩,
              ⟨Target.others, "notification", EPayload.str (msgCleared u.username)⟩]) := by
  constructor <;> simp [serverClear, p0Clear, h]

/-- Witness for the amended C3 at a concrete administrator. -/
theorem clear_admin_spec_witness :
    (UserData.mk "Dana" "Администратор").role = "Администратор" ∧
    serverClear ⟨"Dana", "Администратор"⟩ [] true
      = ([], [⟨Target.all, "clear", EPayload.unit⟩,
              ⟨Target.all, "notification", EPayload.str (msgCleared "Dana")⟩]) :=
  ⟨rfl, (clear_admin_spec ⟨"Dana", "Администратор"⟩ [] rfl).1⟩

/-- C2 counterexample: Bob (Standard) owns stored item 1
(user_id = Bob), yet his textDelete request declaring owner Ann is
rejected — the decision is taken against the request owner field, not
the stored ownerId; and in part_000 the rejection produces no error
notice at all. -/
theorem textDelete_checks_request_owner :
    canEdit uBobStd.role uBobStd.username rowBobOwned.user_id = true ∧
    serverTextDelete uBobStd (some dBobReqAnn) [rowBobOwned] true
      = ([rowBobOwned], [⟨Target.originator, "error", EPayload.str msgDeleteDenied⟩]) ∧
    p0TextDelete uBobStd dBobReqAnn [rowBobOwned] true = ([rowBobOwned], []) := by
  decide

/-- C2 (amended): the textDelete permission decision is made against the
owner field supplied in the request; on failure server.js sends one
error notice to the originator only (part_000 sends nothing) and the
store is unchanged; on success exactly the rows with the requested id
are removed and the deleted id is broadcast sender-exclusive, with
nothing sent back to the originator. -/
theorem serverTextDelete_spec (u : UserData) (d : TextEventData)
    (store : List Row) (hid : truthyId d.id = true) :
    (canEdit u.role u.username d.owner = false →
      serverTextDelete u (some d) store true
        = (store, [⟨Target.originator, "error", EPayload.str msgDeleteDenied⟩]) ∧
      p0TextDelete u d store true = (store, [])) ∧
    (canEdit u.role u.username d.owner = true →
      (∀ r : Row, r ∈ (serverTextDelete u (some d) store true).1 ↔
          (r ∈ store ∧ some r.id ≠ d.id)) ∧
      (serverTextDelete u (some d) store true).2
        = [⟨Target.others, "textDelete", idPayload d.id⟩]) := by
  constructor
  · intro h
    simp [serverTextDelete, p0TextDelete, hid, h]
  · intro h
    refine ⟨fun r => ?_, by simp [serverTextDelete, hid, h]⟩
    simp [serverTextDelete, hid, h, deleteById, List.mem_filter]

/-- Witness for the amended C2: Ann deletes her own item 1 out of a
two-item board. -/
theorem serverTextDelete_spec_witness :
    (truthyId dAnn1.id = true ∧
     canEdit uAnnStd.role uAnnStd.username dAnn1.owner = true) ∧
    ((∀ r : Row, r ∈ (serverTextDelete uAnnStd (some dAnn1) [rowA, rowB] true).1 ↔
        (r ∈ [rowA, rowB] ∧ some r.id ≠ dAnn1.id)) ∧
     (serverTextDelete uAnnStd (some dAnn1) [rowA, rowB] true).2
        = [⟨Target.others, "textDelete", idPayload dAnn1.id⟩]) :=
  ⟨⟨by decide, by decide⟩,
   (serverTextDelete_spec uAnnStd dAnn1 [rowA, rowB] (by decide)).2 (by decide)⟩

/-- C6 counterexample: part_000 performs no username validation — a
user_join carrying an empty username creates a Participant binding,
inserts a session row and broadcasts the join. -/
theorem p0_join_accepts_empty_username :
    p0UserJoin [] "" "Ученик" "s1" 1
      = (some ⟨"", "Ученик"⟩, [⟨"", "Ученик", "s1", 1⟩],
         [⟨Target.others, "user_joined", EPayload.str ""⟩,
          ⟨Target.all, "online_users_update", EPayload.unit⟩]) := by
  decide

/-- C6 (amended): server.js drops a user_join whose payload is missing
or whose username is empty or missing — no binding is created, nothing
is persisted and nothing is emitted; the older part_000 variant performs
no such validation. -/
theorem serverJoin_rejects_empty (b : Option UserData) (sess : List SessionRow)
    (p : JoinPayload) (sockId : String) (now : Nat)
    (h : truthyStr p.username = false) :
    serverUserJoin b sess none sockId now = (b, sess, []) ∧
    serverUserJoin b sess (some p) sockId now = (b, sess, []) := by
  exact ⟨rfl, by simp [serverUserJoin, h]⟩

/-- Witness for the amended C6: a join with an empty username is
dropped. -/
theorem serverJoin_rejects_empty_witness :
    truthyStr (some "") = false ∧
    serverUserJoin none [] (some ⟨some "", "Ученик"⟩) "s1" 1 = (none, [], []) :=
  ⟨by decide,
   (serverJoin_rejects_empty none [] ⟨some "", "Ученик"⟩ "s1" 1 (by decide)).2⟩

/-- C5 counterexample: in part_000 a repeated user_join on the same
connection (same socket_id) inserts a second session row with the same
connectionId, so the registry holds two bindings for one connection. -/
theorem p0_join_duplicates_connection :
    ¬ uniqueSockets ((p0UserJoin (p0UserJoin [] "Ann" "Ученик" "s1" 1).2.1
        "Ann" "Ученик" "s1" 2).2.1) := by
  unfold uniqueSockets
  decide

/-- Helper: the server.js upserting join preserves socket_id
uniqueness. -/
theorem uniqueSockets_upsert (rows : List SessionRow) (s : SessionRow)
    (h : uniqueSockets rows) : uniqueSockets (upsertSession rows s) := by
  unfold uniqueSockets upsertSession
  rw [List.map_append, List.nodup_append]
  refine ⟨List.Nodup.sublist (List.Sublist.map _ (List.filter_sublist _)) h,
    List.nodup_singleton _, ?_⟩
  intro a ha hb
  rcases List.mem_map.mp ha with ⟨r, hr, rfl⟩
  rcases List.mem_filter.mp hr with ⟨_, hq⟩
  have hne : r.socket_id ≠ s.socket_id := by simpa using hq
  simp only [List.map_cons, List.map_nil, List.mem_singleton] at hb
  exact hne hb

/-- Helper: every server.js registry mutation preserves socket_id
uniqueness. -/
theorem uniqueSockets_applyRegOp (rows : List SessionRow) (op : RegOp)
    (h : uniqueSockets rows) : uniqueSockets (applyRegOp rows op) := by
  cases op with
  | join s => exact uniqueSockets_upsert rows s h
  | leave sid =>
    exact List.Nodup.sublist (List.Sublist.map _ (List.filter_sublist _)) h
  | sweep c =>
    exact List.Nodup.sublist (List.Sublist.map _ (List.filter_sublist _)) h

/-- C5 (amended): in server.js (INSERT OR REPLACE on a UNIQUE socket_id)
every registry state reachable from the empty table through joins,
disconnect deletes and hourly sweeps holds at most one binding per
connectionId; the part_000 plain INSERT violates this on a repeated
join. -/
theorem registry_unique_sockets (ops : List RegOp) :
    uniqueSockets (runRegOps [] ops) := by
  have main : ∀ (l : List RegOp) (rows : List SessionRow),
      uniqueSockets rows → uniqueSockets (runRegOps rows l) := by
    intro l
    induction l with
    | nil => intro rows h; exact h
    | cons op rest ih =>
      intro rows h
      exact ih (applyRegOp rows op) (uniqueSockets_applyRegOp rows op h)
  exact main ops [] (by simp [uniqueSockets])

/-- C7 counterexample: the part_000 HTTP delete answers success and
broadcasts nothing when the id is absent, where the claim requires a
404 response. -/
theorem p0_apiDelete_missing_404 :
    p0ApiDelete 1 (some "Ann") (some "Ann") (some "Ученик") [] true
      = ([], ⟨200, true⟩, []) := by
  decide

/-- C7 (amended): server.js DELETE /api/drawing/:id answers 403 and
deletes nothing when the requester is neither Administrator nor equal to
the declared owner; answers 404 with nothing deleted and no broadcast
when the check passes but the id is absent; otherwise deletes the row,
answers success and broadcasts the deleted id to all connections.  The
older part_000 variant never answers 404 and never broadcasts. -/
theorem serverApiDelete_spec (rid : Nat) (userId owner role : Option String)
    (store : List Row) :
    (role ≠ some "Администратор" → userId ≠ owner →
      serverApiDelete (some rid) userId owner role store true
        = (store, ⟨403, false⟩, [])) ∧
    ((role = some "Администратор" ∨ userId = owner) →
      (∀ r ∈ store, r.id ≠ rid) →
      serverApiDelete (some rid) userId owner role store true
        = (store, ⟨404, false⟩, [])) ∧
    ((role = some "Администратор" ∨ userId = owner) →
      (∃ r ∈ store, r.id = rid) →
      serverApiDelete (some rid) userId owner role store true
        = (store.filter (fun r => r.id != rid), ⟨200, true⟩,
           [⟨Target.all, "textDelete", EPayload.nat rid⟩])) := by
  refine ⟨fun h1 h2 => ?_, fun h1 h2 => ?_, fun h1 h2 => ?_⟩
  · simp [serverApiDelete, h1, h2]
  · have hall : store.all (fun r => r.id != rid) = true := by
      rw [List.all_eq_true]
      intro r hr
      simpa using h2 r hr
    rcases h1 with h1 | h1 <;> simp [serverApiDelete, h1, hall]
  · have hall : store.all (fun r => r.id != rid) = false := by
      rcases h2 with ⟨r, hr, hrid⟩
      rw [List.all_eq_false]
      exact ⟨r, hr, by simp [hrid]⟩
    rcases h1 with h1 | h1 <;> simp [serverApiDelete, h1, hall]

/-- Witness for the amended C7: Ann deletes her own item 1 and the
deletion is broadcast. -/
theorem serverApiDelete_spec_witness :
    ((some "Ann" : Option String) = some "Ann" ∧ rowA ∈ [rowA] ∧ rowA.id = 1) ∧
    serverApiDelete (some 1) (some "Ann") (some "Ann") none [rowA] true
      = ([rowA].filter (fun r => r.id != 1), ⟨200, true⟩,
         [⟨Target.all, "textDelete", EPayload.nat 1⟩]) :=
  ⟨⟨rfl, by decide, rfl⟩,
   (serverApiDelete_spec 1 (some "Ann") (some "Ann") none [rowA]).2.2
     (Or.inr rfl) ⟨rowA, by decide, rfl⟩⟩

/-- C8 counterexample: the query orders only by created_at, so for two
rows with equal created_at the id-descending order is also a valid
result of the scan — the claimed tie-break by ascending id is not
guaranteed. -/
theorem listAll_tiebreak_not_guaranteed :
    validScan [rowA, rowB] [rowB, rowA] ∧
    ¬ List.Sorted lexLe [rowB, rowA] := by
  refine ⟨⟨by decide, by decide⟩, by decide⟩

/-- C8 (amended): every result of the ordered scan is a permutation of
the store ascending by created_at — such an ordering always exists
(stable sort by created_at) — and every LIMIT/OFFSET page of a valid
scan remains ascending by created_at; the relative order of rows with
equal created_at is not specified by the query. -/
theorem listAll_sorted_by_created :
    (∀ store : List Row, validScan store (List.insertionSort createdLe store)) ∧
    (∀ (store out : List Row) (lim off : Nat), validScan store out →
      List.Sorted createdLe (pageWindow out lim off)) := by
  constructor
  · intro store
    exact ⟨(List.perm_insertionSort createdLe store).symm,
           List.sorted_insertionSort createdLe store⟩
  · intro store out lim off h
    exact List.Pairwise.sublist
      ((List.take_sublist _ _).trans (List.drop_sublist _ _)) h.2

/-- Witness for the amended C8 on a concrete two-row scan and its second
page. -/
theorem listAll_sorted_by_created_witness :
    validScan [rowB, rowA] [rowA, rowB] ∧
    List.Sorted createdLe (pageWindow [rowA, rowB] 1 1) :=
  ⟨⟨by decide, by decide⟩,
   listAll_sorted_by_created.2 [rowB, rowA] [rowA, rowB] 1 1 ⟨by decide, by decide⟩⟩

/-- C9 counterexample: a textUpdate whose id matches no stored row is a
silent no-op — the store is unchanged, nothing at all (in particular no
NotFound) is sent to the originator, and the update is still broadcast
sender-exclusive. -/
theorem textUpdate_absent_id_not_signalled :
    serverTextUpdate uCaraAdm (some dAnn5) [rowA] 9 true
      = ([rowA], [⟨Target.others, "textUpdate",
                   EPayload.str (mkStamped dAnn5 9 "Cara")⟩]) ∧
    (∀ e ∈ (serverTextUpdate uCaraAdm (some dAnn5) [rowA] 9 true).2,
        e.target ≠ Target.originator) := by
  decide

/-- Helper: the SQL UPDATE keeps the row count. -/
theorem updateDataById_length (store : List Row) (tid : Option Nat)
    (nd : String) : (updateDataById store tid nd).length = store.length :=
  List.length_map store _

/-- Helper: rows whose id does not match survive the SQL UPDATE
unchanged. -/
theorem updateDataById_mem_of_ne (store : List Row) (tid : Option Nat)
    (nd : String) (r : Row) (hr : r ∈ store) (h : some r.id ≠ tid) :
    r ∈ updateDataById store tid nd := by
  unfold updateDataById
  exact List.mem_map.mpr ⟨r, hr, by simp [h]⟩

/-- Helper: every row produced by the SQL UPDATE keeps the id, type,
user_id and created_at of a stored row. -/
theorem updateDataById_fields (store : List Row) (tid : Option Nat)
    (nd : String) (r : Row) (hr : r ∈ updateDataById store tid nd) :
    ∃ s ∈ store, r.id = s.id ∧ r.type = s.type ∧ r.user_id = s.user_id ∧
      r.created_at = s.created_at := by
  unfold updateDataById at hr
  rcases List.mem_map.mp hr with ⟨s, hs, rfl⟩
  by_cases hc : (some s.id == tid) = true
  · exact ⟨s, hs, by simp [hc]⟩
  · exact ⟨s, hs, by simp [hc]⟩

/-- Helper: when no stored row matches the id, the SQL UPDATE is the
identity. -/
theorem updateDataById_absent (store : List Row) (tid : Option Nat)
    (nd : String) (h : ∀ r ∈ store, some r.id ≠ tid) :
    updateDataById store tid nd = store := by
  unfold updateDataById
  have : ∀ r ∈ store,
      (if some r.id == tid then { r with data := nd } else r) = r := by
    intro r hr
    simp [h r hr]
  exact (List.map_congr_left this).trans (List.map_id store)

/-- C9 (amended): a permitted textUpdate or textMove changes only the
data column of the rows matching the requested id — the row count is
unchanged, rows with a different id survive unchanged, and every result
row keeps the id, kind, ownerId and createdAt of a stored row; when no
row matches, the store is untouched and the only emission is the
sender-exclusive broadcast: no NotFound is signalled. -/
theorem textUpdate_frame_spec (u : UserData) (d : TextEventData)
    (store : List Row) (now : Nat)
    (hid : truthyId d.id = true)
    (hperm : canEdit u.role u.username d.owner = true) :
    ((serverTextUpdate u (some d) store now true).1.length = store.length ∧
     (∀ r ∈ store, some r.id ≠ d.id →
        r ∈ (serverTextUpdate u (some d) store now true).1) ∧
     (∀ r ∈ (serverTextUpdate u (some d) store now true).1, ∃ s ∈ store,
        r.id = s.id ∧ r.type = s.type ∧ r.user_id = s.user_id ∧
        r.created_at = s.created_at) ∧
     ((∀ r ∈ store, some r.id ≠ d.id) →
        serverTextUpdate u (some d) store now true
          = (store, [⟨Target.others, "textUpdate",
                      EPayload.str (mkStamped d now u.username)⟩]))) ∧
    ((serverTextMove u (some d) store now true).1.length = store.length ∧
     (∀ r ∈ store, some r.id ≠ d.id →
        r ∈ (serverTextMove u (some d) store now true).1) ∧
     (∀ r ∈ (serverTextMove u (some d) store now true).1, ∃ s ∈ store,
        r.id = s.id ∧ r.type = s.type ∧ r.user_id = s.user_id ∧
        r.created_at = s.created_at) ∧
     ((∀ r ∈ store, some r.id ≠ d.id) →
        serverTextMove u (some d) store now true
          = (store, [⟨Target.others, "textMove",
                      EPayload.str (mkStamped d now u.username)⟩]))) := by
  have hu : serverTextUpdate u (some d) store now true
      = (updateDataById store d.id (mkStamped d now u.username),
         [⟨Target.others, "textUpdate",
           EPayload.str (mkStamped d now u.username)⟩]) := by
    simp [serverTextUpdate, hid, hperm]
  have hm : serverTextMove u (some d) store now true
      = (updateDataById store d.id (mkStamped d now u.username),
         [⟨Target.others, "textMove",
           EPayload.str (mkStamped d now u.username)⟩]) := by
    simp [serverTextMove, hid, hperm]
  rw [hu, hm]
  refine ⟨⟨updateDataById_length store d.id _, ?_, ?_, ?_⟩,
          ⟨updateDataById_length store d.id _, ?_, ?_, ?_⟩⟩
  · exact fun r hr h => updateDataById_mem_of_ne store d.id _ r hr h
  · exact fun r hr => updateDataById_fields store d.id _ r hr
  · intro h
    rw [updateDataById_absent store d.id _ h]
  · exact fun r hr h => updateDataById_mem_of_ne store d.id _ r hr h
  · exact fun r hr => updateDataById_fields store d.id _ r hr
  · intro h
    rw [updateDataById_absent store d.id _ h]

/-- Witness for the amended C9: an admin update of the absent id 5 on a
one-item board is a silent no-op with the broadcast emitted. -/
theorem textUpdate_frame_spec_witness :
    (truthyId dAnn5.id = true ∧
     canEdit uAnnStd.role uAnnStd.username dAnn5.owner = true ∧
     (∀ r ∈ [rowA], some r.id ≠ dAnn5.id)) ∧
    serverTextUpdate uAnnStd (some dAnn5) [rowA] 9 true
      = ([rowA], [⟨Target.others, "textUpdate",
                   EPayload.str (mkStamped dAnn5 9 uAnnStd.username)⟩]) :=
  ⟨⟨by decide, by decide, by decide⟩,
   ((textUpdate_frame_spec uAnnStd dAnn5 [rowA] 9 (by decide)
      (by decide)).1).2.2.2 (by decide)⟩

/-- C10: for each of the five mutation events from an Active connection
the sender-exclusive broadcast is identical whether the paired database
write succeeds or fails; a failed write leaves the store unchanged while
the broadcast is still emitted, so the live stream can diverge from the
durable log. -/
theorem broadcast_independent_of_db (u : UserData) (dr : DrawData)
    (tc : TextCreateData) (d : TextEventData) (store : List Row) (now : Nat)
    (hdr : dr.fromPt.isNone = false) (hdr2 : dr.toPt.isNone = false)
    (htc : truthyStr tc.text = true) (htc2 : truthyId tc.id = true)
    (hid : truthyId d.id = true)
    (hperm : canEdit u.role u.username d.owner = true) :
    (broadcasts (serverDrawing u (some dr) store now false).2
       = broadcasts (serverDrawing u (some dr) store now true).2 ∧
     (serverDrawing u (some dr) store now false).1 = store ∧
     broadcasts (serverDrawing u (some dr) store now false).2 ≠ []) ∧
    (broadcasts (serverText u (some tc) store now false).2
       = broadcasts (serverText u (some tc) store now true).2 ∧
     (serverText u (some tc) store now false).1 = store ∧
     broadcasts (serverText u (some tc) store now false).2 ≠ []) ∧
    (broadcasts (serverTextUpdate u (some d) store now false).2
       = broadcasts (serverTextUpdate u (some d) store now true).2 ∧
     (serverTextUpdate u (some d) store now false).1 = store ∧
     broadcasts (serverTextUpdate u (some d) store now false).2 ≠ []) ∧
    (broadcasts (serverTextMove u (some d) store now false).2
       = broadcasts (serverTextMove u (some d) store now true).2 ∧
     (serverTextMove u (some d) store now false).1 = store ∧
     broadcasts (serverTextMove u (some d) store now false).2 ≠ []) ∧
    (broadcasts (serverTextDelete u (some d) store false).2
       = broadcasts (serverTextDelete u (some d) store true).2 ∧
     (serverTextDelete u (some d) store false).1 = store ∧
     broadcasts (serverTextDelete u (some d) store false).2 ≠ []) := by
  refine ⟨⟨?_, ?_, ?_⟩, ⟨?_, ?_, ?_⟩, ⟨?_, ?_, ?_⟩, ⟨?_, ?_, ?_⟩, ⟨?_, ?_, ?_⟩⟩ <;>
    simp [serverDrawing, serverText, serverTextUpdate, serverTextMove,
      serverTextDelete, broadcasts, List.filter, hdr, hdr2, htc, htc2, hid,
      hperm] <;>
    decide

/-- Witness for C10: the drawing conjunct at concrete inputs, with all
hypotheses discharged. -/
theorem broadcast_independent_of_db_witness :
    (drawSample.fromPt.isNone = false ∧ drawSample.toPt.isNone = false ∧
     truthyStr tcSample.text = true ∧ truthyId tcSample.id = true ∧
     truthyId dAnn1.id = true ∧
     canEdit uAnnStd.role uAnnStd.username dAnn1.owner = true) ∧
    (broadcasts (serverDrawing uAnnStd (some drawSample) [rowA] 7 false).2
       = broadcasts (serverDrawing uAnnStd (some drawSample) [rowA] 7 true).2 ∧
     (serverDrawing uAnnStd (some drawSample) [rowA] 7 false).1 = [rowA] ∧
     broadcasts (serverDrawing uAnnStd (some drawSample) [rowA] 7 false).2 ≠ []) :=
  ⟨⟨by decide, by decide, by decide, by decide, by decide, by decide⟩,
   (broadcast_independent_of_db uAnnStd drawSample tcSample dAnn1 [rowA] 7
      (by decide) (by decide) (by decide) (by decide) (by decide) (by decide)).1⟩

end Doska
